import Mathlib

/-!
Shallow embedding of `src/service.py`: a fetch–aggregate–normalize–synchronize
pipeline that downloads per-region pipe-delimited tables, cleans them with
pandas, writes a CSV snapshot and POSTs the result to an ingestion API.

Modelling conventions:
- a pandas cell of a `dtype=str` frame is `Option String` (`none` models NaN);
- a `DataFrame` row is a fixed 4-column `RawRow` before cleaning and a
  5-column `NormalizedRecord` after `process_and_clean_data`;
- Python functions that may raise are modelled in `Except PyExn`; a
  `try/except` block is a `match` on that result;
- logging calls and externally visible actions are modelled as event lists.
-/

/-- Sentinel end date `DEFAULT_DATA_FIM = "31129999"` (service.py line 15). -/
def DEFAULT_DATA_FIM : String := "31129999"

/-- The single-quote character, written via its code point. -/
def squote : Char := Char.ofNat 39

/-- One-character string holding a single quote. -/
def squoteStr : String := String.mk [squote]

/-- A cell of a pandas `dtype=str` DataFrame: `none` models a missing value
(NaN), `some s` a string cell. -/
abbrev Cell := Option String

/-- One raw 4-column row, positionally {cod_aj_apur, descricao, data_inicio,
data_fim}, as produced by `pd.read_csv(..., header=None, dtype=str)`. -/
structure RawRow where
  c0 : Cell
  c1 : Cell
  c2 : Cell
  c3 : Cell
deriving DecidableEq

/-- One row after `process_and_clean_data`: the four named columns plus the
derived `uf` column.  `data_fim` is a plain `String` because the cleaning
step eliminates missing values in that column. -/
structure NormalizedRecord where
  cod_aj_apur : Cell
  descricao : Cell
  data_inicio : Cell
  data_fim : String
  uf : Cell
deriving DecidableEq

/-- Escaping of one character: a single quote becomes two (service.py
line 114, the str.replace of one single quote by two, acting per character). -/
def escChar (c : Char) : List Char :=
  if c = squote then [squote, squote] else [c]

/-- Quote escaping of a whole string cell. -/
def escapeQuotes (s : String) : String :=
  String.mk ((s.data.map escChar).flatten)

/-- Cleaning of a `data_fim` cell (service.py line 111):
`fillna(DEFAULT_DATA_FIM)` turns a missing cell into the sentinel, then
the subsequent replace turns each of the exact string values nan, NaN and
the empty string into the sentinel; every other value is kept. -/
def cleanDataFim (c : Cell) : String :=
  match c with
  | none => DEFAULT_DATA_FIM
  | some s => if s = "nan" ∨ s = "NaN" ∨ s = "" then DEFAULT_DATA_FIM else s

/-- Python slicing `s[:2]` on a string: the first two characters, or the
whole string when it is shorter (service.py line 116, `.str[:2]`). -/
def pysliceTwo (s : String) : String :=
  String.mk (s.data.take 2)

/-- Row-wise action of `process_and_clean_data` (service.py lines 103-117):
`data_fim` is cleaned, `descricao` has its single quotes doubled (the pandas
`.str` accessor keeps NaN as NaN), and `uf` is the first two characters of
`cod_aj_apur` (NaN stays NaN). -/
def normalizeRow (r : RawRow) : NormalizedRecord :=
  { cod_aj_apur := r.c0
    descricao := r.c1.map escapeQuotes
    data_inicio := r.c2
    data_fim := cleanDataFim r.c3
    uf := r.c0.map pysliceTwo }

/-- The function `process_and_clean_data` on the consolidated table
(service.py lines 103-117): the cleaning acts row by row. -/
def process_and_clean_data (t : List RawRow) : List NormalizedRecord :=
  t.map normalizeRow

/-- Projection of a normalized record back onto its four data columns, used
to express re-application of the normalizer to its own output. -/
def toRawRow (n : NormalizedRecord) : RawRow :=
  { c0 := n.cod_aj_apur
    c1 := n.descricao
    c2 := n.data_inicio
    c3 := some n.data_fim }

/-- Running the normalizer a second time on its own output table. -/
def processTwice (t : List RawRow) : List NormalizedRecord :=
  process_and_clean_data ((process_and_clean_data t).map toRawRow)

/- ### Helper lemmas about the cleaning functions -/

/-- Cleaning a `data_fim` cell never yields one of the replaced tokens. -/
lemma cleanDataFim_not_bad (c : Cell) :
    ¬(cleanDataFim c = "nan" ∨ cleanDataFim c = "NaN" ∨ cleanDataFim c = "") := by
  unfold cleanDataFim
  match c with
  | none => decide
  | some s =>
      by_cases h : s = "nan" ∨ s = "NaN" ∨ s = ""
      · simp [h]; decide
      · simp [h]

/-- Unfolding equation of `cleanDataFim` on a present cell. -/
lemma cleanDataFim_some (s : String) :
    cleanDataFim (some s) =
      if s = "nan" ∨ s = "NaN" ∨ s = "" then DEFAULT_DATA_FIM else s := rfl

/-- Cleaning an already cleaned `data_fim` value changes nothing. -/
lemma cleanDataFim_idem (c : Cell) :
    cleanDataFim (some (cleanDataFim c)) = cleanDataFim c := by
  have h := cleanDataFim_not_bad c
  rw [cleanDataFim_some, if_neg h]

/-- Escaping a quote-free character list changes nothing. -/
lemma flatten_escChar_of_no_squote (l : List Char) (h : squote ∉ l) :
    (l.map escChar).flatten = l := by
  induction l with
  | nil => rfl
  | cons c cs ih =>
      simp only [List.mem_cons, not_or] at h
      have hc : c ≠ squote := fun hh => h.1 hh.symm
      simp [escChar, hc, ih h.2]

/-- Escaping a string that contains no single quote changes nothing. -/
lemma escapeQuotes_of_no_squote (s : String) (h : squote ∉ s.data) :
    escapeQuotes s = s := by
  unfold escapeQuotes
  cases s with
  | mk l =>
      simp only
      congr 1
      exact flatten_escChar_of_no_squote l h

/-- A character of an escaped string that is not a quote was already present
in the source string; consequence used for idempotence. -/
lemma escapeQuotes_data (s : String) :
    (escapeQuotes s).data = (s.data.map escChar).flatten := rfl

/- ### Region catalogue and fetch -/

/-- One entry of `DADOS_ESTADUAIS` (service.py lines 21-49): a region
descriptor with `idPacote`, the region name `UF` and an optional
`idTabela` (absent means the region is intentionally unsupported). -/
structure Estado where
  idPacote : Int
  uf : String
  idTabela : Option Int
deriving DecidableEq

/-- The static region catalogue `DADOS_ESTADUAIS` (service.py lines 21-49). -/
def DADOS_ESTADUAIS : List Estado :=
  [ ⟨11, "Bahia", some 190⟩,
    ⟨21, "Paraiba", some 46⟩,
    ⟨8, "Alagoas", some 33⟩,
    ⟨15, "Goias", some 37⟩,
    ⟨19, "Minas Gerais", some 43⟩,
    ⟨22, "Pernambuco", some 212⟩,
    ⟨29, "Rondonia", some 53⟩,
    ⟨28, "Roraima", none⟩,
    ⟨30, "Santa Catarina", some 54⟩,
    ⟨31, "Sao Paulo", some 247⟩,
    ⟨32, "Sergipe", some 56⟩,
    ⟨33, "Tocantins", some 59⟩,
    ⟨7, "Acre", some 727⟩,
    ⟨10, "Amapa", some 842⟩,
    ⟨9, "Amazonas", some 220⟩,
    ⟨12, "Ceara", some 36⟩,
    ⟨13, "Distrito Federal", some 838⟩,
    ⟨14, "Espirito Santo", some 171⟩,
    ⟨16, "Maranhao", some 122⟩,
    ⟨17, "Mato Grosso", some 131⟩,
    ⟨18, "Mato Grosso do Sul", some 42⟩,
    ⟨20, "Para", some 123⟩,
    ⟨23, "Parana", some 50⟩,
    ⟨24, "Piaui", some 127⟩,
    ⟨25, "Rio de Janeiro", some 52⟩,
    ⟨26, "Rio Grande do Norte", some 126⟩,
    ⟨27, "Rio Grande do Sul", some 173⟩ ]

/-- Result of one HTTP GET against the tabular service: a 2xx response with
a body, a non-2xx status (`raise_for_status` will raise), or a transport
error (timeout, connection refused, ...). -/
inductive HttpResult where
  | ok (body : String)
  | httpError (status : Nat)
  | connError
deriving DecidableEq

/-- Network environment: the response the external service gives for the
query parameters `(idTabela, idPacote)` during this run. -/
def Net : Type := Int → Int → HttpResult

/-- Python exception classes relevant to the embedded code. -/
inductive PyExn where
  | requestException
  | parserError
  | otherError
  | osError
deriving DecidableEq

/-- Observable events of one `fetch_state_data` call: its log lines and the
outgoing network request. -/
inductive FetchLog where
  | skipWarning (uf : String)
  | networkRequest (idTabela idPacote : Int)
  | emptyWarning (uf : String)
  | successInfo (uf : String)
  | networkError (uf : String)
  | parseError (uf : String)
  | unexpectedError (uf : String)
deriving DecidableEq

/-- Python `str.split(sep)` on a character list: splits at every separator,
keeping empty chunks, and yields one (empty) chunk for the empty string. -/
def pysplit (sep : Char) : List Char → List (List Char)
  | [] => [[]]
  | c :: cs =>
      let r := pysplit sep cs
      if c = sep then
        [] :: r
      else
        match r with
        | [] => [[c]]
        | h :: t => (c :: h) :: t

/-- Python `str.strip()` on a character list: drop leading and trailing
whitespace. -/
def pystrip (l : List Char) : List Char :=
  ((l.dropWhile Char.isWhitespace).reverse.dropWhile Char.isWhitespace).reverse

/-- One CSV cell as read by pandas with `dtype=str`: an empty field is a
missing value (NaN), anything else is kept as text. -/
def parseCell (l : List Char) : Cell :=
  if l = [] then none else some (String.mk l)

/-- One data line split at the pipe delimiter; the read fails (ParserError)
unless it yields exactly the four expected columns. -/
def parseRow (l : List Char) : Option RawRow :=
  match (pysplit (Char.ofNat 124) l).map parseCell with
  | [a, b, c, d] => some ⟨a, b, c, d⟩
  | _ => none

/-- The data lines of a response body for
pd.read_csv with the pipe separator, skiprows=1 and header=None: split into lines,
skip the first (provider banner), drop blank lines. -/
def dataLines (body : String) : List (List Char) :=
  (((pysplit (Char.ofNat 10) body.data).drop 1).filter (fun l => l ≠ []))

/-- The try-block of `fetch_state_data` (service.py lines 72-92), given the
region name and the two query parameters.  Returns the emitted events
together with either the parsed table (`ok`), a soft empty-body result
(`ok none`), or the raised exception.  A non-2xx status makes
`raise_for_status` raise a RequestException; a body with no data lines makes
`pd.read_csv` raise EmptyDataError (not a ParserError, hence `otherError`);
a malformed line raises ParserError. -/
def fetch_try (uf : String) (idTabela idPacote : Int) (net : Net) :
    List FetchLog × Except PyExn (Option (List RawRow)) :=
  let req := FetchLog.networkRequest idTabela idPacote
  match net idTabela idPacote with
  | HttpResult.connError => ([req], Except.error PyExn.requestException)
  | HttpResult.httpError _ => ([req], Except.error PyExn.requestException)
  | HttpResult.ok body =>
      if pystrip body.data = [] then
        ([req, FetchLog.emptyWarning uf], Except.ok none)
      else
        match dataLines body with
        | [] => ([req], Except.error PyExn.otherError)
        | ls =>
            match ls.mapM parseRow with
            | none => ([req], Except.error PyExn.parserError)
            | some rows => ([req, FetchLog.successInfo uf], Except.ok (some rows))

/-- The function `fetch_state_data` (service.py lines 53-101): skip the
region when `idTabela` is absent, otherwise run the try-block and catch
RequestException, ParserError and any other exception, logging each and
returning `None`.  The outer `Except` records whether the call itself
raises past its boundary. -/
def fetch_state_data (e : Estado) (net : Net) :
    List FetchLog × Except PyExn (Option (List RawRow)) :=
  match e.idTabela with
  | none => ([FetchLog.skipWarning e.uf], Except.ok none)
  | some id =>
      match fetch_try e.uf id e.idPacote net with
      | (logs, Except.ok r) => (logs, Except.ok r)
      | (logs, Except.error PyExn.requestException) =>
          (logs ++ [FetchLog.networkError e.uf], Except.ok none)
      | (logs, Except.error PyExn.parserError) =>
          (logs ++ [FetchLog.parseError e.uf], Except.ok none)
      | (logs, Except.error PyExn.otherError) =>
          (logs ++ [FetchLog.unexpectedError e.uf], Except.ok none)
      | (logs, Except.error PyExn.osError) =>
          (logs ++ [FetchLog.unexpectedError e.uf], Except.ok none)

/-- The value `fetch_state_data` hands to the coordinator: its returned
Optional DataFrame (`none` for any caught failure or skip). -/
def df_of (r : List FetchLog × Except PyExn (Option (List RawRow))) :
    Option (List RawRow) :=
  match r.2 with
  | Except.ok o => o
  | Except.error _ => none

/- ### Coordinator, snapshot writer and synchronizer -/

/-- Result of the single sync POST to the ingestion API: a 2xx response
whose body parses as the confirmation JSON, a non-2xx status
(`raise_for_status` raises), or a transport error. -/
inductive PostResult where
  | ok (body : String)
  | httpError (status : Nat)
  | connError
deriving DecidableEq

/-- Observable events of `main`: the terminal "nothing downloaded" warning,
the successful snapshot write, the sync POST with its payload, the logged
outcome of the POST, the empty-table no-op warning, and the final
completion log. -/
inductive MainEvent where
  | nothingToProcess
  | snapshotWrite (table : List NormalizedRecord)
  | syncPost (payload : List NormalizedRecord)
  | syncSuccess
  | syncError
  | emptyNoSend
  | done
deriving DecidableEq

/-- Environment of one run: the network behaviour of the tabular service,
whether `df_final.to_csv` succeeds (`False` models an I/O error raised by
the write), and the response of the ingestion API to the POST. -/
structure Env where
  net : Net
  writeOk : Bool
  postResult : PostResult

/-- The function `enviar_dados_para_api` (service.py lines 119-146): warn
and do nothing on an empty table, otherwise POST the table; a non-2xx
status or transport error is caught (RequestException) and logged; a 2xx
response is logged as success.  Returns the emitted events. -/
def enviar_dados_para_api (df : List NormalizedRecord) (post : PostResult) :
    List MainEvent :=
  if df = [] then
    [MainEvent.emptyNoSend]
  else
    MainEvent.syncPost df ::
      (match post with
       | PostResult.ok _ => [MainEvent.syncSuccess]
       | PostResult.httpError _ => [MainEvent.syncError]
       | PostResult.connError => [MainEvent.syncError])

/-- The list `all_dfs` of `main` (service.py lines 153-157):
`executor.map(fetch_state_data, DADOS_ESTADUAIS)` yields one result per
catalogue entry in catalogue order, and the comprehension keeps those that
are neither `None` nor empty. -/
def all_dfs (net : Net) : List (List RawRow) :=
  ((DADOS_ESTADUAIS.map (fun e => df_of (fetch_state_data e net))).filterMap
      id).filter (fun l => l ≠ [])

/-- The cleaned consolidated table `df_final` of a run (service.py
lines 164-167): `pd.concat` of the kept tables, then
`process_and_clean_data`. -/
def df_final_table (net : Net) : List NormalizedRecord :=
  process_and_clean_data (all_dfs net).flatten

/-- The function `main` (service.py lines 148-174).  When `all_dfs` is
empty the run warns and returns before any write or POST.  Otherwise the
consolidated table is cleaned and written with `to_csv`; a failing write
raises an uncaught OSError, aborting the run before the POST.  On a
successful write the POST is attempted and the run finishes.  Returns the
emitted events and whether `main` itself raised. -/
def main_run (env : Env) : List MainEvent × Except PyExn Unit :=
  if all_dfs env.net = [] then
    ([MainEvent.nothingToProcess], Except.ok ())
  else
    let df_final := df_final_table env.net
    if env.writeOk then
      (MainEvent.snapshotWrite df_final ::
        (enviar_dados_para_api df_final env.postResult ++ [MainEvent.done]),
       Except.ok ())
    else
      ([], Except.error PyExn.osError)

/-- Number of successfully parsed rows a region contributes: the length of
the table its fetch returned, and `0` for a skip or any failure. -/
def region_rows (net : Net) (e : Estado) : Nat :=
  match df_of (fetch_state_data e net) with
  | some rows => rows.length
  | none => 0

/-- Raw rows a region contributes to the merged table: its parsed table
when the fetch succeeded with data, `[]` otherwise. -/
def contribution (net : Net) (e : Estado) : List RawRow :=
  match df_of (fetch_state_data e net) with
  | some rows => rows
  | none => []

/- ### Claim theorems: normalizer -/

/-- C1: for every record of the normalizer output, `data_fim` is
non-empty; a missing cell or one of the literal tokens nan, NaN or the
empty string is rewritten to the sentinel 31129999, and every other value passes
through unchanged. -/
theorem C1_endDate_cleaning (t : List RawRow) :
    (∀ n ∈ process_and_clean_data t, n.data_fim ≠ "") ∧
    (∀ r ∈ t,
      normalizeRow r ∈ process_and_clean_data t ∧
      ((r.c3 = none ∨ r.c3 = some "nan" ∨ r.c3 = some "NaN" ∨ r.c3 = some "") →
        (normalizeRow r).data_fim = "31129999") ∧
      (∀ s, r.c3 = some s → ¬(s = "nan" ∨ s = "NaN" ∨ s = "") →
        (normalizeRow r).data_fim = s)) := by
  constructor
  · intro n hn
    simp only [process_and_clean_data, List.mem_map] at hn
    obtain ⟨r, _, rfl⟩ := hn
    have h := cleanDataFim_not_bad r.c3
    simp only [not_or] at h
    exact h.2.2
  · intro r hr
    refine ⟨List.mem_map_of_mem _ hr, ?_, ?_⟩
    · intro hcase
      show cleanDataFim r.c3 = "31129999"
      rcases hcase with h | h | h | h <;> rw [h] <;> decide
    · intro s hs hbad
      show cleanDataFim r.c3 = s
      rw [hs, cleanDataFim_some, if_neg hbad]

/-- Witness for C1 at concrete rows: a missing cell, the token `nan` and an
ordinary value. -/
theorem C1_endDate_cleaning_witness :
    (normalizeRow ⟨some "AB123", some "d", some "2020", none⟩).data_fim
        = "31129999" ∧
    (normalizeRow ⟨some "AB123", some "d", some "2020", some "nan"⟩).data_fim
        = "31129999" ∧
    (normalizeRow ⟨some "AB123", some "d", some "2020", some "31122030"⟩).data_fim
        = "31122030" :=
  ⟨((C1_endDate_cleaning [⟨some "AB123", some "d", some "2020", none⟩]).2
      _ (List.mem_singleton.mpr rfl)).2.1 (Or.inl rfl),
   ((C1_endDate_cleaning [⟨some "AB123", some "d", some "2020", some "nan"⟩]).2
      _ (List.mem_singleton.mpr rfl)).2.1 (Or.inr (Or.inl rfl)),
   ((C1_endDate_cleaning [⟨some "AB123", some "d", some "2020", some "31122030"⟩]).2
      _ (List.mem_singleton.mpr rfl)).2.2 "31122030" rfl (by decide)⟩

/-- The short-slice property of Python slicing: a string of fewer than two
characters is returned whole. -/
lemma pysliceTwo_of_short (s : String) (h : s.length < 2) : pysliceTwo s = s := by
  cases s with
  | mk l =>
      have hl : l.length ≤ 2 := Nat.le_of_lt h
      unfold pysliceTwo
      simp [List.take_of_length_le hl]

/-- C9: every output record has `uf` equal to the first two characters of
its `cod_aj_apur` (with NaN propagated), and when `cod_aj_apur` is shorter
than two characters, `uf` is that value itself (no padding, no error). -/
theorem C9_regionCode_derivation (t : List RawRow) :
    ∀ n ∈ process_and_clean_data t,
      n.uf = n.cod_aj_apur.map pysliceTwo ∧
      (∀ s, n.cod_aj_apur = some s → s.length < 2 → n.uf = some s) := by
  intro n hn
  simp only [process_and_clean_data, List.mem_map] at hn
  obtain ⟨r, _, rfl⟩ := hn
  refine ⟨rfl, ?_⟩
  intro s hs hlen
  show r.c0.map pysliceTwo = some s
  have hc : r.c0 = some s := hs
  rw [hc]
  simp [pysliceTwo_of_short s hlen]

/-- Witness for C9: a one-character `cod_aj_apur` yields `uf` equal to the
whole code. -/
theorem C9_regionCode_derivation_witness :
    (normalizeRow ⟨some "A", none, none, none⟩).uf = some "A" :=
  (C9_regionCode_derivation [⟨some "A", none, none, none⟩]
      _ (List.mem_singleton.mpr rfl)).2 "A" rfl (by decide)

/-- A raw row whose description contains a single quote. -/
def quoteRow : RawRow :=
  ⟨some "AB1", some (String.mk [Char.ofNat 97, squote, Char.ofNat 98]),
   some "01012020", some "31122030"⟩

/-- C4 counterexample: the normalizer is not idempotent.  On a row whose
description contains one single quote, the first pass yields two quotes and
the second pass four, so running the cleaning twice differs from running it
once. -/
theorem C4_not_idempotent_counterexample :
    processTwice [quoteRow] ≠ process_and_clean_data [quoteRow] := by decide

/-- C4 (amended): the normalizer is idempotent on every table in which no
description cell contains a single quote; the `data_fim` cleaning and the
`uf` derivation are idempotent unconditionally, and only the quote doubling
of `descricao` breaks idempotence. -/
theorem C4_idempotent_on_quote_free (t : List RawRow)
    (h : ∀ r ∈ t, ∀ s, r.c1 = some s → squote ∉ s.data) :
    processTwice t = process_and_clean_data t := by
  unfold processTwice process_and_clean_data
  rw [List.map_map, List.map_map]
  apply List.map_congr_left
  intro r hr
  show normalizeRow (toRawRow (normalizeRow r)) = normalizeRow r
  cases hc1 : r.c1 with
  | none => simp [normalizeRow, toRawRow, cleanDataFim_idem, hc1]
  | some s =>
      have hq := h r hr s hc1
      simp [normalizeRow, toRawRow, cleanDataFim_idem, hc1,
        escapeQuotes_of_no_squote s hq]

/-- Witness for the amended C4 on a concrete quote-free row. -/
theorem C4_idempotent_on_quote_free_witness :
    processTwice [⟨some "AB1", some "descr", some "01012020", none⟩] =
      process_and_clean_data [⟨some "AB1", some "descr", some "01012020", none⟩] :=
  C4_idempotent_on_quote_free _ (by
    intro r hr s hs
    rw [List.mem_singleton] at hr
    subst hr
    have hs2 : some "descr" = some s := hs
    injection hs2 with hs3
    subst hs3
    decide)

/- ### Claim theorems: fetcher -/

/-- Every branch of the try-block logs the outgoing network request first. -/
lemma fetch_try_first_log (uf : String) (idTabela idPacote : Int) (net : Net) :
    ∃ rest, (fetch_try uf idTabela idPacote net).1 =
      FetchLog.networkRequest idTabela idPacote :: rest := by
  unfold fetch_try
  cases net idTabela idPacote with
  | ok body =>
      simp only
      split
      · exact ⟨_, rfl⟩
      · split
        · exact ⟨_, rfl⟩
        · split
          · exact ⟨_, rfl⟩
          · exact ⟨_, rfl⟩
  | httpError s => exact ⟨_, rfl⟩
  | connError => exact ⟨_, rfl⟩

/-- C5: for every region descriptor and every network behaviour,
`fetch_state_data` returns normally — a parsed table or `None` — and never
lets an exception escape; whenever it returns `None` it has logged a cause. -/
theorem C5_fetch_never_raises (e : Estado) (net : Net) :
    ∃ o, (fetch_state_data e net).2 = Except.ok o ∧
      (o = none → (fetch_state_data e net).1 ≠ []) := by
  unfold fetch_state_data
  cases hid : e.idTabela with
  | none => exact ⟨none, rfl, fun _ => by simp⟩
  | some id =>
      obtain ⟨rest, hlog⟩ := fetch_try_first_log e.uf id e.idPacote net
      rcases hft : fetch_try e.uf id e.idPacote net with ⟨logs, r⟩
      rw [hft] at hlog
      simp only at hlog
      cases r with
      | ok o =>
          refine ⟨o, ?_, ?_⟩
          · simp [hft]
          · intro _
            simp [hft, hlog]
      | error ex =>
          cases ex <;>
            exact ⟨none, by simp [hft], fun _ => by simp [hft]⟩

/-- Witness for C5: the fetch of a concrete region against a failing
network returns normally. -/
theorem C5_fetch_never_raises_witness :
    ∃ o, (fetch_state_data ⟨11, "Bahia", some 190⟩
            (fun _ _ => HttpResult.connError)).2 = Except.ok o ∧
      (o = none →
        (fetch_state_data ⟨11, "Bahia", some 190⟩
            (fun _ _ => HttpResult.connError)).1 ≠ []) :=
  C5_fetch_never_raises ⟨11, "Bahia", some 190⟩ (fun _ _ => HttpResult.connError)

/-- C8: a region without `idTabela` is skipped immediately: the fetch
returns `None` with only the skip warning, issues no network request and
logs no network failure. -/
theorem C8_skipped_region (e : Estado) (net : Net) (h : e.idTabela = none) :
    fetch_state_data e net = ([FetchLog.skipWarning e.uf], Except.ok none) ∧
    (∀ i p, FetchLog.networkRequest i p ∉ (fetch_state_data e net).1) ∧
    (∀ u, FetchLog.networkError u ∉ (fetch_state_data e net).1) := by
  have h1 : fetch_state_data e net = ([FetchLog.skipWarning e.uf], Except.ok none) := by
    unfold fetch_state_data
    rw [h]
  refine ⟨h1, ?_, ?_⟩
  · intro i p
    simp [h1]
  · intro u
    simp [h1]

/-- Witness for C8 at the one catalogue entry lacking `idTabela` (Roraima). -/
theorem C8_skipped_region_witness :
    fetch_state_data ⟨28, "Roraima", none⟩ (fun _ _ => HttpResult.ok "x")
        = ([FetchLog.skipWarning "Roraima"], Except.ok none) ∧
    (∀ i p, FetchLog.networkRequest i p ∉
      (fetch_state_data ⟨28, "Roraima", none⟩ (fun _ _ => HttpResult.ok "x")).1) ∧
    (∀ u, FetchLog.networkError u ∉
      (fetch_state_data ⟨28, "Roraima", none⟩ (fun _ _ => HttpResult.ok "x")).1) :=
  C8_skipped_region ⟨28, "Roraima", none⟩ (fun _ _ => HttpResult.ok "x") rfl

/- ### Claim theorems: coordinator and main -/

/-- The kept tables of a run, as a function of the per-region fetch
results: drop `None` and empty tables (the comprehension of service.py
line 157). -/
def keptTables (ds : List (Option (List RawRow))) : List (List RawRow) :=
  (ds.filterMap id).filter (fun x => x ≠ [])

/-- The table a fetch result contributes to the merge: its rows, or none. -/
def optRows (d : Option (List RawRow)) : List RawRow :=
  match d with
  | some rows => rows
  | none => []

/-- Unfolding of `all_dfs` through `keptTables`. -/
lemma all_dfs_eq_keptTables (net : Net) :
    all_dfs net =
      keptTables (DADOS_ESTADUAIS.map (fun e => df_of (fetch_state_data e net))) := rfl

/-- Recursion equation of `keptTables` on a missing table. -/
lemma keptTables_cons_none (rest : List (Option (List RawRow))) :
    keptTables (none :: rest) = keptTables rest := rfl

/-- Recursion equation of `keptTables` on a present table. -/
lemma keptTables_cons_some (d : List RawRow) (rest : List (Option (List RawRow))) :
    keptTables (some d :: rest) =
      if d = [] then keptTables rest else d :: keptTables rest := by
  by_cases hd : d = [] <;>
    simp [keptTables, List.filterMap_cons, List.filter_cons, hd]

/-- When every fetch result is `None` or empty, nothing is kept. -/
lemma keptTables_nil_of_trivial (ds : List (Option (List RawRow)))
    (h : ∀ d ∈ ds, d = none ∨ d = some []) : keptTables ds = [] := by
  induction ds with
  | nil => rfl
  | cons d rest ih =>
      have hrest := ih (fun x hx => h x (List.mem_cons_of_mem d hx))
      rcases h d (List.mem_cons_self d rest) with he | he <;> subst he
      · rw [keptTables_cons_none, hrest]
      · rw [keptTables_cons_some]
        simp [hrest]

/-- The merged kept rows count is the sum of the per-result row counts:
dropping `None` and empty tables loses no rows. -/
lemma keptTables_flatten_length (ds : List (Option (List RawRow))) :
    (keptTables ds).flatten.length = (ds.map (fun d => (optRows d).length)).sum := by
  induction ds with
  | nil => rfl
  | cons d rest ih =>
      cases d with
      | none =>
          rw [keptTables_cons_none]
          simpa [optRows] using ih
      | some rows =>
          rw [keptTables_cons_some]
          by_cases hr : rows = []
          · subst hr
            simpa [optRows] using ih
          · rw [if_neg hr]
            simp [optRows, ih]

/-- The merged kept rows are the in-order concatenation of the contribution
of every result. -/
lemma keptTables_flatten_eq (ds : List (Option (List RawRow))) :
    (keptTables ds).flatten = (ds.map optRows).flatten := by
  induction ds with
  | nil => rfl
  | cons d rest ih =>
      cases d with
      | none =>
          rw [keptTables_cons_none]
          simpa [optRows] using ih
      | some rows =>
          rw [keptTables_cons_some]
          by_cases hr : rows = []
          · subst hr
            simpa [optRows] using ih
          · rw [if_neg hr]
            simp [optRows, ih]

/-- The per-region parsed row count, through `optRows`. -/
lemma region_rows_eq (net : Net) (e : Estado) :
    region_rows net e = (optRows (df_of (fetch_state_data e net))).length := by
  cases h : df_of (fetch_state_data e net) <;> simp [region_rows, optRows, h]

/-- The per-region contribution, through `optRows`. -/
lemma contribution_eq (net : Net) (e : Estado) :
    contribution net e = optRows (df_of (fetch_state_data e net)) := by
  cases h : df_of (fetch_state_data e net) <;> simp [contribution, optRows, h]

/-- C2: when no region succeeds with a non-empty parsed table, `main`
reports the terminal nothing-to-process condition and returns before the
normalizer runs: no snapshot write and no sync POST appear in the trace. -/
theorem C2_no_data_halts (env : Env)
    (h : ∀ e ∈ DADOS_ESTADUAIS, df_of (fetch_state_data e env.net) = none ∨
         df_of (fetch_state_data e env.net) = some []) :
    main_run env = ([MainEvent.nothingToProcess], Except.ok ()) ∧
    (∀ t, MainEvent.snapshotWrite t ∉ (main_run env).1) ∧
    (∀ p, MainEvent.syncPost p ∉ (main_run env).1) := by
  have hnil : all_dfs env.net = [] := by
    rw [all_dfs_eq_keptTables]
    apply keptTables_nil_of_trivial
    intro d hd
    rw [List.mem_map] at hd
    obtain ⟨e, he, rfl⟩ := hd
    exact h e he
  have h1 : main_run env = ([MainEvent.nothingToProcess], Except.ok ()) := by
    simp [main_run, hnil]
  exact ⟨h1, fun t => by simp [h1], fun p => by simp [h1]⟩

/-- Run environment in which every request fails at the transport level. -/
def envNoData : Env :=
  ⟨fun _ _ => HttpResult.connError, true, PostResult.ok "ok"⟩

/-- Witness for C2: a run in which every request fails reports
nothing-to-process with no write and no POST. -/
theorem C2_no_data_halts_witness :
    main_run envNoData = ([MainEvent.nothingToProcess], Except.ok ()) ∧
    (∀ t, MainEvent.snapshotWrite t ∉ (main_run envNoData).1) ∧
    (∀ p, MainEvent.syncPost p ∉ (main_run envNoData).1) :=
  C2_no_data_halts envNoData (by decide)

/-- C6: the final normalized table has exactly as many rows as the sum of
the successfully parsed row counts over the catalogue; a region without
`idTabela` contributes zero rows, and per-region failures never make `main`
raise (only a failing snapshot write does). -/
theorem C6_row_count_conservation (env : Env) :
    (df_final_table env.net).length =
      (DADOS_ESTADUAIS.map (region_rows env.net)).sum ∧
    (∀ e ∈ DADOS_ESTADUAIS, e.idTabela = none → region_rows env.net e = 0) ∧
    (env.writeOk = true → (main_run env).2 = Except.ok ()) := by
  refine ⟨?_, ?_, ?_⟩
  · unfold df_final_table process_and_clean_data
    rw [List.length_map, all_dfs_eq_keptTables, keptTables_flatten_length,
      List.map_map]
    congr 1
    apply List.map_congr_left
    intro e _
    exact (region_rows_eq env.net e).symm
  · intro e _ hnone
    have hfetch : fetch_state_data e env.net
        = ([FetchLog.skipWarning e.uf], Except.ok none) := by
      unfold fetch_state_data
      rw [hnone]
    simp [region_rows, df_of, hfetch]
  · intro hw
    by_cases hnil : all_dfs env.net = []
    · simp [main_run, hnil]
    · simp [main_run, hnil, hw]

/-- Network in which every region responds with a banner line and one valid
data row. -/
def netGood : Net := fun _ _ => HttpResult.ok "H\na|b|c|d"

/-- Run environment with good data, a successful write and a 500 from the
ingestion API. -/
def envGood : Env := ⟨netGood, true, PostResult.httpError 500⟩

/-- Witness for C6 on a concrete environment, including the Roraima entry
and a completing run. -/
theorem C6_row_count_conservation_witness :
    (df_final_table envGood.net).length =
      (DADOS_ESTADUAIS.map (region_rows envGood.net)).sum ∧
    region_rows envGood.net ⟨28, "Roraima", none⟩ = 0 ∧
    (main_run envGood).2 = Except.ok () :=
  ⟨(C6_row_count_conservation envGood).1,
   (C6_row_count_conservation envGood).2.1 ⟨28, "Roraima", none⟩ (by decide) rfl,
   (C6_row_count_conservation envGood).2.2 rfl⟩

/-- C10: the merge is deterministic in catalogue order: the aggregated raw
table is the in-order concatenation of the contribution of each catalogue
entry (executor.map yields results in input order), and two runs whose fetches
return identical results produce identical final normalized tables. -/
theorem C10_deterministic_merge (env1 env2 : Env)
    (h : ∀ e ∈ DADOS_ESTADUAIS,
      fetch_state_data e env1.net = fetch_state_data e env2.net) :
    (all_dfs env1.net).flatten =
      (DADOS_ESTADUAIS.map (contribution env1.net)).flatten ∧
    df_final_table env1.net = df_final_table env2.net := by
  constructor
  · rw [all_dfs_eq_keptTables, keptTables_flatten_eq, List.map_map]
    apply congrArg
    apply List.map_congr_left
    intro e _
    exact (contribution_eq env1.net e).symm
  · unfold df_final_table
    rw [all_dfs_eq_keptTables, all_dfs_eq_keptTables]
    have hm : DADOS_ESTADUAIS.map (fun e => df_of (fetch_state_data e env1.net)) =
        DADOS_ESTADUAIS.map (fun e => df_of (fetch_state_data e env2.net)) := by
      apply List.map_congr_left
      intro e he
      rw [h e he]
    rw [hm]

/-- Run environment sharing the network of `envGood` but differing in every
other respect. -/
def envGoodVariant : Env := ⟨envGood.net, false, PostResult.connError⟩

/-- Witness for C10: two runs over the same network behaviour agree on the
final table even though write and sync behave differently. -/
theorem C10_deterministic_merge_witness :
    (all_dfs envGood.net).flatten =
      (DADOS_ESTADUAIS.map (contribution envGood.net)).flatten ∧
    df_final_table envGood.net = df_final_table envGoodVariant.net :=
  C10_deterministic_merge envGood envGoodVariant (fun _ _ => rfl)

/-- C7: whenever the sync POST is attempted and the API answers with a
non-2xx status, the snapshot has already been written successfully, the
POST comes strictly after the write in the trace, and the failure is
isolated: `main` still completes normally. -/
theorem C7_write_precedes_sync (env : Env) (s : Nat)
    (hs : env.postResult = PostResult.httpError s)
    (hp : ∃ p, MainEvent.syncPost p ∈ (main_run env).1) :
    ∃ rest, (main_run env).1 =
        MainEvent.snapshotWrite (df_final_table env.net) ::
          MainEvent.syncPost (df_final_table env.net) :: rest ∧
      (main_run env).2 = Except.ok () ∧
      MainEvent.done ∈ (main_run env).1 := by
  obtain ⟨p, hmem⟩ := hp
  by_cases hnil : all_dfs env.net = []
  · exfalso
    revert hmem
    simp [main_run, hnil]
  · cases hw : env.writeOk with
    | false =>
        exfalso
        revert hmem
        simp [main_run, hnil, hw]
    | true =>
        by_cases hdf : df_final_table env.net = []
        · exfalso
          revert hmem
          simp [main_run, hnil, hw, enviar_dados_para_api, hdf]
        · refine ⟨[MainEvent.syncError, MainEvent.done], ?_, ?_, ?_⟩
          · simp [main_run, hnil, hw, enviar_dados_para_api, hdf, hs]
          · simp [main_run, hnil, hw]
          · simp [main_run, hnil, hw, enviar_dados_para_api, hdf, hs]

/-- Witness for C7: with good data and a 500 from the API, the trace shows
the write, then the POST, then the logged failure and completion. -/
theorem C7_write_precedes_sync_witness :
    ∃ rest, (main_run envGood).1 =
        MainEvent.snapshotWrite (df_final_table envGood.net) ::
          MainEvent.syncPost (df_final_table envGood.net) :: rest ∧
      (main_run envGood).2 = Except.ok () ∧
      MainEvent.done ∈ (main_run envGood).1 :=
  C7_write_precedes_sync envGood 500 rfl
    ⟨df_final_table envGood.net, by decide⟩

/-- Run environment with good data in which the snapshot write fails. -/
def envWriteFail : Env := ⟨netGood, false, PostResult.ok "ok"⟩

/-- C3 (code bug): `df_final.to_csv` is not guarded by any handler, so in a
run with data whose snapshot write fails, `main` raises the write error and
the sync POST is never attempted — contradicting the contract that a write
failure is reported and does not block the sync attempt. -/
theorem C3_write_failure_blocks_sync :
    all_dfs envWriteFail.net ≠ [] ∧
    (main_run envWriteFail).2 = Except.error PyExn.osError ∧
    (∀ p, MainEvent.syncPost p ∉ (main_run envWriteFail).1) := by
  refine ⟨by decide, rfl, ?_⟩
  intro p
  have h : (main_run envWriteFail).1 = [] := rfl
  simp [h]
